import Mathlib

/-!
Shallow embedding of the Constitution AI frontend client
(src/app/page.tsx, component ConstitutionAssistant).

The component holds eleven useState fields and four handlers:
handleFileSelect, extractTextFromPDF, processConstitution, handleQuery,
handleKeyPress.  Each handler is embedded as a pure function from the
session state (plus an oracle describing the outcome of the asynchronous
steps: PDF text extraction, the fetch of the processing stream, the fetch
of the query response) to the resulting session state.  Where a claim is
about absence of a network call or about invoking a sub-handler, the
embedded function additionally returns a Bool flag recording that fact.

All literal strings are copied verbatim from the source.
-/

/-- A browser File object, as far as the component reads it: the component
inspects file.type (MIME type, line 35 of page.tsx) and displays file.name. -/
structure JsFile where
  name : String
  type : String
deriving DecidableEq, Repr

/-- A relevant section of the query response wire format (interface
QueryResult, page.tsx lines 6 to 16).  The similarity score is a JS number
in the unit interval; it is carried opaquely, so it is embedded as a
rational. -/
structure RelevantSection where
  text : String
  similarity : ℚ
  article_section : String
  chunk_type : String
deriving DecidableEq, Repr

/-- The parsed query response (interface QueryResult, page.tsx lines 6 to 16). -/
structure QueryResult where
  success : Bool
  query : String
  response : String
  relevantSections : List RelevantSection
deriving DecidableEq, Repr

/-- The session state: the eleven useState fields of ConstitutionAssistant
(page.tsx lines 19 to 29), in source order. -/
structure AppState where
  pdfFile : Option JsFile
  extractedText : String
  uploadProgress : Nat
  isProcessing : Bool
  isUploaded : Bool
  query : String
  queryResult : Option QueryResult
  isQuerying : Bool
  error : String
  processingProgress : Nat
  processingStage : String
deriving DecidableEq, Repr

/-- The initial state: the useState default values (page.tsx lines 19 to 29). -/
def initState : AppState :=
  { pdfFile := none
    extractedText := ""
    uploadProgress := 0
    isProcessing := false
    isUploaded := false
    query := ""
    queryResult := none
    isQuerying := false
    error := ""
    processingProgress := 0
    processingStage := "" }

/-- The backend requests the component can issue (page.tsx lines 75 and 149). -/
inductive Request where
  | stats
  | processReq
  | queryReq
deriving DecidableEq, Repr

/-- The network requests issued while the component mounts.  The component
body of page.tsx (lines 18 to 31 and the returned JSX) declares state,
a ref and handlers only: it registers no mount effect (no useEffect) and
issues no fetch outside the handlers, so mounting issues no request. -/
def mountRequests : List Request := []

/-- A decoded line of the processing stream (wire format of the spec,
parsed at page.tsx lines 100 to 111).  progress carries data.progress and
data.stage; complete carries data.result (of which the handler only reads
the success flag); error carries data.error.  ignoredLine stands for a
line that does not start with the data prefix, or whose JSON fails to
parse (the per-line catch at lines 109 to 111), or whose type field is
unknown: the loop leaves the state untouched for all of these. -/
inductive StreamEvent where
  | progress (progress : Nat) (stage : String)
  | complete (success : Bool)
  | error (msg : String)
  | ignoredLine
deriving DecidableEq, Repr

/-- One iteration of the stream consumption loop body (page.tsx lines 102
to 108).  The accumulator pairs the finalResult variable (the captured
complete payload, of which only the success flag matters) with the session
state.  The source dispatch is an if on data.type being progress, else-if
on it being complete; an event of type error matches neither branch, so it
changes nothing. -/
def handleEvent (acc : Option Bool × AppState) (e : StreamEvent) :
    Option Bool × AppState :=
  match e with
  | .progress p stage =>
      (acc.1, { acc.2 with processingProgress := p, processingStage := stage })
  | .complete success => (some success, acc.2)
  | .error _ => acc
  | .ignoredLine => acc

/-- The finalResult variable left by the loop, as a function of the event
list alone: the last complete event wins (finalResult is reassigned on
every complete event, page.tsx line 107). -/
def captureResult (acc : Option Bool) (e : StreamEvent) : Option Bool :=
  match e with
  | .complete success => some success
  | _ => acc

def finalResultOf (evs : List StreamEvent) : Option Bool :=
  evs.foldl captureResult none

/-- Outcome oracle for the fetch of the processing endpoint
(page.tsx lines 75 to 132): the fetch may reject; the response may be a
stream (content type includes text/stream) decoding to a list of events;
or the non-streaming fallback parses a single JSON body whose success flag
is read; or that fallback parse rejects. -/
inductive FetchOutcome where
  | fetchError
  | streaming (evs : List StreamEvent)
  | plain (success : Bool)
  | jsonError
deriving DecidableEq, Repr

/-- State written at the top of the try block of processConstitution
(page.tsx lines 72 to 73), before the fetch. -/
def procInit (s : AppState) : AppState :=
  { s with processingProgress := 0, processingStage := "Initializing chunking..." }

/-- State written by the catch block of processConstitution
(page.tsx lines 134 to 139). -/
def procFailState (s : AppState) : AppState :=
  { s with error := "Failed to process constitution text"
           processingProgress := 0
           processingStage := "" }

/-- State written on the success path of processConstitution
(page.tsx lines 118 to 119 and 128 to 129). -/
def procSuccessState (s : AppState) : AppState :=
  { s with processingProgress := 100, processingStage := "Complete!" }

/-- processConstitution (page.tsx lines 70 to 140).  The text argument is
only placed in the request body; it does not influence the client state.
After consuming a stream, the handler checks the captured finalResult for
a truthy success flag; otherwise it throws, and the catch block stores the
generic message and zeroes the progress. -/
def processConstitution (text : String) (outcome : FetchOutcome)
    (s : AppState) : AppState :=
  let _ := text
  let s0 := procInit s
  match outcome with
  | .fetchError => procFailState s0
  | .streaming evs =>
      let out := evs.foldl handleEvent (none, s0)
      match out.1 with
      | some true => procSuccessState out.2
      | _ => procFailState out.2
  | .plain true => procSuccessState s0
  | .plain false => procFailState s0
  | .jsonError => procFailState s0

/-- extractTextFromPDF (page.tsx lines 44 to 68).  The extract oracle is
the outcome of pdfToText: some text on success, none on rejection.  On
success the handler stores the text, marks isUploaded, and awaits
processConstitution (whose own catch never rethrows); the finally clause
clears isProcessing on both paths.  Note the catch path runs after
uploadProgress was already set to 25 (line 49). -/
def extractTextFromPDF (extract : Option String) (outcome : FetchOutcome)
    (s : AppState) : AppState :=
  let s1 := { s with isProcessing := true, uploadProgress := 0 }
  let s2 := { s1 with uploadProgress := 25 }
  match extract with
  | none =>
      { s2 with
          error := "Failed to extract text from PDF. Please try with a different PDF file."
          isProcessing := false }
  | some text =>
      let s3 := { s2 with uploadProgress := 75, extractedText := text }
      let s4 := { s3 with uploadProgress := 100, isUploaded := true }
      let s5 := processConstitution text outcome s4
      { s5 with isProcessing := false }

/-- handleFileSelect (page.tsx lines 33 to 42).  The file argument is
event.target.files at index 0, absent when no file was chosen.  The
returned Bool records whether extractTextFromPDF was invoked.  On
acceptance the handler stores the file and clears the error before
invoking extraction; it does not touch queryResult. -/
def handleFileSelect (file : Option JsFile) (extract : Option String)
    (outcome : FetchOutcome) (s : AppState) : AppState × Bool :=
  match file with
  | some f =>
      if f.type = "application/pdf" then
        (extractTextFromPDF extract outcome { s with pdfFile := some f, error := "" }, true)
      else
        ({ s with error := "Please select a valid PDF file" }, false)
  | none => ({ s with error := "Please select a valid PDF file" }, false)

/-- Outcome oracle for the query fetch (page.tsx lines 149 to 158): either
the fetch and the JSON parse succeed with a parsed QueryResult, or one of
them rejects. -/
inductive QueryOutcome where
  | ok (r : QueryResult)
  | failure
deriving DecidableEq, Repr

/-- The trim method of JS strings: removes leading and trailing
whitespace.  (Embedded directly on the character list so that it is fully
computable by the kernel.) -/
def jsTrim (s : String) : String :=
  ⟨(((s.data.dropWhile Char.isWhitespace).reverse).dropWhile
      Char.isWhitespace).reverse⟩

/-- handleQuery (page.tsx lines 142 to 165).  A blank query (falsy after
trim) returns before any state write or fetch.  Otherwise isQuerying is
set and the error cleared, the parsed result is stored unconditionally (no
check of its success flag), a rejection stores the generic message, and
the finally clause clears isQuerying.  The returned Bool records whether
the network call was performed. -/
def handleQuery (outcome : QueryOutcome) (s : AppState) : AppState × Bool :=
  if jsTrim s.query = "" then (s, false)
  else
    let s1 := { s with isQuerying := true, error := "" }
    let s2 :=
      match outcome with
      | .ok r => { s1 with queryResult := some r }
      | .failure => { s1 with error := "Failed to process query" }
    ({ s2 with isQuerying := false }, true)

/-- A keyboard event, as far as handleKeyPress reads it. -/
structure KeyEvent where
  key : String
  shiftKey : Bool
deriving DecidableEq, Repr

/-- handleKeyPress (page.tsx lines 167 to 172).  Returns the state, whether
the query network call was performed, and whether preventDefault was
called (suppressing the newline insertion). -/
def handleKeyPress (e : KeyEvent) (outcome : QueryOutcome)
    (s : AppState) : AppState × Bool × Bool :=
  if e.key = "Enter" && !e.shiftKey then
    let r := handleQuery outcome s
    (r.1, r.2, true)
  else (s, false, false)

/-- Whether the query textarea is enabled: its disabled attribute is the
negation of isUploaded (page.tsx line 341). -/
def queryInputEnabled (s : AppState) : Bool := s.isUploaded

/-- Whether the Ask button is enabled: its disabled attribute is the
disjunction at page.tsx line 346. -/
def queryButtonEnabled (s : AppState) : Bool :=
  !(jsTrim s.query = "") && s.isUploaded && !s.isQuerying

/-! ## Helper lemmas about the stream consumption loop -/

/-- The loop body touches only processingProgress and processingStage:
every other state field survives the whole fold. -/
lemma foldl_handleEvent_frame (evs : List StreamEvent)
    (acc : Option Bool × AppState) :
    (evs.foldl handleEvent acc).2.pdfFile = acc.2.pdfFile ∧
    (evs.foldl handleEvent acc).2.extractedText = acc.2.extractedText ∧
    (evs.foldl handleEvent acc).2.uploadProgress = acc.2.uploadProgress ∧
    (evs.foldl handleEvent acc).2.isProcessing = acc.2.isProcessing ∧
    (evs.foldl handleEvent acc).2.isUploaded = acc.2.isUploaded ∧
    (evs.foldl handleEvent acc).2.query = acc.2.query ∧
    (evs.foldl handleEvent acc).2.queryResult = acc.2.queryResult ∧
    (evs.foldl handleEvent acc).2.isQuerying = acc.2.isQuerying ∧
    (evs.foldl handleEvent acc).2.error = acc.2.error := by
  induction evs generalizing acc with
  | nil => exact ⟨rfl, rfl, rfl, rfl, rfl, rfl, rfl, rfl, rfl⟩
  | cons e t ih =>
    rw [List.foldl_cons]
    have h := ih (handleEvent acc e)
    cases e <;> exact h

/-- The finalResult component of the fold is captureResult folded over the
events alone. -/
lemma foldl_handleEvent_fst (evs : List StreamEvent)
    (acc : Option Bool × AppState) :
    (evs.foldl handleEvent acc).1 = evs.foldl captureResult acc.1 := by
  induction evs generalizing acc with
  | nil => rfl
  | cons e t ih =>
    rw [List.foldl_cons, List.foldl_cons, ih]
    cases e <;> rfl

/-- Closed form of processConstitution on a streaming outcome: the final
state depends on whether the captured finalResult has a truthy success
flag. -/
lemma processConstitution_streaming (text : String) (evs : List StreamEvent)
    (s : AppState) :
    processConstitution text (.streaming evs) s =
      (match finalResultOf evs with
        | some true => procSuccessState (evs.foldl handleEvent (none, procInit s)).2
        | _ => procFailState (evs.foldl handleEvent (none, procInit s)).2) := by
  have hfst : (evs.foldl handleEvent (none, procInit s)).1 = finalResultOf evs :=
    foldl_handleEvent_fst evs (none, procInit s)
  simp only [processConstitution, hfst]

/-- processConstitution never writes isUploaded. -/
lemma processConstitution_isUploaded (text : String) (outcome : FetchOutcome)
    (s : AppState) :
    (processConstitution text outcome s).isUploaded = s.isUploaded := by
  cases outcome with
  | fetchError => rfl
  | jsonError => rfl
  | plain b => cases b <;> rfl
  | streaming evs =>
    rw [processConstitution_streaming]
    have h := (foldl_handleEvent_frame evs (none, procInit s)).2.2.2.2.1
    rcases finalResultOf evs with _ | b
    · exact h
    · cases b
      · exact h
      · exact h

/-- processConstitution never writes queryResult. -/
lemma processConstitution_queryResult (text : String) (outcome : FetchOutcome)
    (s : AppState) :
    (processConstitution text outcome s).queryResult = s.queryResult := by
  cases outcome with
  | fetchError => rfl
  | jsonError => rfl
  | plain b => cases b <;> rfl
  | streaming evs =>
    rw [processConstitution_streaming]
    have h := (foldl_handleEvent_frame evs (none, procInit s)).2.2.2.2.2.2.1
    rcases finalResultOf evs with _ | b
    · exact h
    · cases b
      · exact h
      · exact h

/-- extractTextFromPDF never writes queryResult. -/
lemma extractTextFromPDF_queryResult (extract : Option String)
    (outcome : FetchOutcome) (s : AppState) :
    (extractTextFromPDF extract outcome s).queryResult = s.queryResult := by
  cases extract with
  | none => rfl
  | some text =>
    show (processConstitution text outcome _).queryResult = s.queryResult
    rw [processConstitution_queryResult]

/-- After a successful extraction, isUploaded is true whatever the
processing outcome. -/
lemma extractTextFromPDF_some_isUploaded (text : String)
    (outcome : FetchOutcome) (s : AppState) :
    (extractTextFromPDF (some text) outcome s).isUploaded = true := by
  show (processConstitution text outcome _).isUploaded = true
  rw [processConstitution_isUploaded]

/-! ## Claim theorems -/

/-- Claim C1, counterexample.  A full run from the initial state (valid PDF
selected, extraction yields some text, stream emits exactly one event of
type error with message "bad text" and no complete event) ends with the
generic message "Failed to process constitution text", not with the
message of the error event, and with isUploaded still true, so the status
is not reverted to the upload-needed condition. -/
theorem C1_counterexample :
    ((handleFileSelect (some { name := "c.pdf", type := "application/pdf" })
        (some "TEXT") (FetchOutcome.streaming [StreamEvent.error "bad text"])
        initState).1).error = "Failed to process constitution text" ∧
    ((handleFileSelect (some { name := "c.pdf", type := "application/pdf" })
        (some "TEXT") (FetchOutcome.streaming [StreamEvent.error "bad text"])
        initState).1).error ≠ "bad text" ∧
    ((handleFileSelect (some { name := "c.pdf", type := "application/pdf" })
        (some "TEXT") (FetchOutcome.streaming [StreamEvent.error "bad text"])
        initState).1).isUploaded = true := by
  refine ⟨by decide, by decide, by decide⟩

/-- Claim C1, amended.  The stream consumption loop ignores events of type
error (its dispatch handles only progress and complete), so a run whose
captured finalResult is not a truthy success ends through the generic
catch block: the error message is the generic "Failed to process
constitution text" (not the message carried by the error event), the
processing progress is reset to 0, the stage label is cleared, and
isUploaded is left unchanged (the handler never reverts it to the
upload-needed condition). -/
theorem C1_theorem (s : AppState) (text m : String)
    (acc : Option Bool × AppState) (evs : List StreamEvent)
    (h : finalResultOf evs ≠ some true) :
    handleEvent acc (StreamEvent.error m) = acc ∧
    (processConstitution text (.streaming evs) s).error
        = "Failed to process constitution text" ∧
    (processConstitution text (.streaming evs) s).processingProgress = 0 ∧
    (processConstitution text (.streaming evs) s).processingStage = "" ∧
    (processConstitution text (.streaming evs) s).isUploaded = s.isUploaded := by
  have hUp := processConstitution_isUploaded text (.streaming evs) s
  rw [processConstitution_streaming] at *
  rcases hres : finalResultOf evs with _ | b
  · rw [hres] at hUp
    exact ⟨rfl, rfl, rfl, rfl, hUp⟩
  · cases b
    · rw [hres] at hUp
      exact ⟨rfl, rfl, rfl, rfl, hUp⟩
    · exact absurd hres h

/-- Claim C1, witness for the amended theorem. -/
theorem C1_witness :
    finalResultOf [StreamEvent.error "bad text"] ≠ some true ∧
    (processConstitution "TEXT"
        (.streaming [StreamEvent.error "bad text"]) initState).error
      = "Failed to process constitution text" :=
  ⟨by decide,
    (C1_theorem initState "TEXT" "bad text" (none, initState)
      [StreamEvent.error "bad text"] (by decide)).2.1⟩

/-- Claim C2, confirmed.  For any start state, selecting a PDF whose
extraction succeeds and whose processing stream leaves a captured
finalResult with a truthy success flag ends with processingProgress 100,
the terminal stage label "Complete!", isUploaded true (the ready
condition: queries enabled), and the error message cleared (it was
cleared on acceptance and never rewritten). -/
theorem C2_theorem (s : AppState) (f : JsFile) (text : String)
    (evs : List StreamEvent) (hf : f.type = "application/pdf")
    (hc : finalResultOf evs = some true) :
    ((handleFileSelect (some f) (some text)
        (.streaming evs) s).1).processingProgress = 100 ∧
    ((handleFileSelect (some f) (some text)
        (.streaming evs) s).1).processingStage = "Complete!" ∧
    ((handleFileSelect (some f) (some text)
        (.streaming evs) s).1).isUploaded = true ∧
    ((handleFileSelect (some f) (some text) (.streaming evs) s).1).error = "" := by
  simp only [handleFileSelect, if_pos hf]
  show ((extractTextFromPDF (some text) (.streaming evs) _).processingProgress = 100) ∧ _
  simp only [extractTextFromPDF]
  rw [processConstitution_streaming, hc]
  have hframe := foldl_handleEvent_frame evs
    (none, procInit { s with
      pdfFile := some f, error := "", isProcessing := true,
      uploadProgress := 100, extractedText := text, isUploaded := true })
  refine ⟨rfl, rfl, ?_, ?_⟩
  · exact hframe.2.2.2.2.1
  · exact hframe.2.2.2.2.2.2.2.2

/-- Claim C2, witness. -/
theorem C2_witness :
    ("application/pdf" : String) = "application/pdf" ∧
    finalResultOf [StreamEvent.progress 30 "chunking", StreamEvent.complete true]
      = some true ∧
    ((handleFileSelect (some { name := "c.pdf", type := "application/pdf" })
        (some "TEXT")
        (.streaming [StreamEvent.progress 30 "chunking", StreamEvent.complete true])
        initState).1).processingProgress = 100 ∧
    ((handleFileSelect (some { name := "c.pdf", type := "application/pdf" })
        (some "TEXT")
        (.streaming [StreamEvent.progress 30 "chunking", StreamEvent.complete true])
        initState).1).error = "" :=
  ⟨rfl, by decide,
    (C2_theorem initState { name := "c.pdf", type := "application/pdf" } "TEXT"
      [StreamEvent.progress 30 "chunking", StreamEvent.complete true]
      rfl (by decide)).1,
    (C2_theorem initState { name := "c.pdf", type := "application/pdf" } "TEXT"
      [StreamEvent.progress 30 "chunking", StreamEvent.complete true]
      rfl (by decide)).2.2.2⟩

/-- Claim C3, counterexample.  The component issues no request while
mounting (in particular no GET of the stats endpoint), and the post-mount
state is not the ready state: isUploaded is false whatever the backend
would have answered. -/
theorem C3_counterexample :
    Request.stats ∉ mountRequests ∧ initState.isUploaded = false := by
  refine ⟨by decide, by decide⟩

/-- Claim C3, amended.  The component performs no backend status check on
mount: the mount issues no network request at all, and the initial state
is unconditionally the upload-needed state (isUploaded false, no error,
no file, no result, zero progress), independent of any stats response. -/
theorem C3_theorem :
    mountRequests = [] ∧
    initState.isUploaded = false ∧
    initState.error = "" ∧
    initState.pdfFile = none ∧
    initState.queryResult = none ∧
    initState.uploadProgress = 0 ∧
    initState.processingProgress = 0 := by
  refine ⟨rfl, rfl, rfl, rfl, rfl, rfl, rfl⟩

/-- Claim C4, counterexample.  A query whose response parses successfully
with success false: the parsed result is stored, but the error message is
left cleared (the handler never reads the success flag), not set to the
response field "nope". -/
theorem C4_counterexample :
    ((handleQuery
        (.ok { success := false, query := "q", response := "nope",
               relevantSections := [] })
        { initState with query := "q", isUploaded := true }).1).queryResult
      = some { success := false, query := "q", response := "nope",
               relevantSections := [] } ∧
    ((handleQuery
        (.ok { success := false, query := "q", response := "nope",
               relevantSections := [] })
        { initState with query := "q", isUploaded := true }).1).error
      ≠ "nope" := by
  refine ⟨by decide, by decide⟩

/-- Claim C4, amended.  For every non-blank query whose response parses
successfully, the handler stores the parsed result unconditionally and
never inspects its success flag: the error message stays cleared (it was
emptied at the start of the handler), even when success is false, and the
querying flag is cleared at the end. -/
theorem C4_theorem (s : AppState) (r : QueryResult)
    (h : ¬ jsTrim s.query = "") :
    ((handleQuery (.ok r) s).1).queryResult = some r ∧
    ((handleQuery (.ok r) s).1).error = "" ∧
    ((handleQuery (.ok r) s).1).isQuerying = false ∧
    (handleQuery (.ok r) s).2 = true := by
  simp [handleQuery, if_neg h]

/-- Claim C4, witness for the amended theorem. -/
theorem C4_witness :
    ¬ jsTrim "q" = "" ∧
    ((handleQuery
        (.ok { success := false, query := "q", response := "nope",
               relevantSections := [] })
        { initState with query := "q" }).1).error = "" :=
  ⟨by decide,
    (C4_theorem { initState with query := "q" }
      { success := false, query := "q", response := "nope",
        relevantSections := [] } (by decide)).2.1⟩

/-- Claim C5, confirmed.  For every selection that is absent or whose
declared MIME type is not application/pdf, the handler only sets the
error message: extraction is not invoked and every other field is exactly
the one of the incoming state. -/
theorem C5_theorem (s : AppState) (file : Option JsFile)
    (extract : Option String) (outcome : FetchOutcome)
    (h : ∀ f, file = some f → ¬ f.type = "application/pdf") :
    handleFileSelect file extract outcome s
      = ({ s with error := "Please select a valid PDF file" }, false) := by
  cases file with
  | none => rfl
  | some f =>
    have hf : ¬ f.type = "application/pdf" := h f rfl
    simp only [handleFileSelect, if_neg hf]

/-- Claim C5, witness. -/
theorem C5_witness :
    (∀ f, (some { name := "a.txt", type := "text/plain" } : Option JsFile)
        = some f → ¬ f.type = "application/pdf") ∧
    handleFileSelect (some { name := "a.txt", type := "text/plain" })
        none FetchOutcome.fetchError initState
      = ({ initState with error := "Please select a valid PDF file" }, false) :=
  ⟨by intro f hf; cases hf; decide,
    C5_theorem initState (some { name := "a.txt", type := "text/plain" })
      none FetchOutcome.fetchError (by intro f hf; cases hf; decide)⟩

/-- processConstitution never writes pdfFile. -/
lemma processConstitution_pdfFile (text : String) (outcome : FetchOutcome)
    (s : AppState) :
    (processConstitution text outcome s).pdfFile = s.pdfFile := by
  cases outcome with
  | fetchError => rfl
  | jsonError => rfl
  | plain b => cases b <;> rfl
  | streaming evs =>
    rw [processConstitution_streaming]
    have h := (foldl_handleEvent_frame evs (none, procInit s)).1
    rcases finalResultOf evs with _ | b
    · exact h
    · cases b
      · exact h
      · exact h

/-- extractTextFromPDF never writes pdfFile. -/
lemma extractTextFromPDF_pdfFile (extract : Option String)
    (outcome : FetchOutcome) (s : AppState) :
    (extractTextFromPDF extract outcome s).pdfFile = s.pdfFile := by
  cases extract with
  | none => rfl
  | some text =>
    show (processConstitution text outcome _).pdfFile = s.pdfFile
    rw [processConstitution_pdfFile]

/-- handleQuery never writes isUploaded. -/
lemma handleQuery_isUploaded (outcome : QueryOutcome) (s : AppState) :
    ((handleQuery outcome s).1).isUploaded = s.isUploaded := by
  unfold handleQuery
  split
  · rfl
  · cases outcome <;> rfl

/-- extractTextFromPDF never clears isUploaded. -/
lemma extractTextFromPDF_isUploaded_mono (extract : Option String)
    (outcome : FetchOutcome) (s : AppState) (h : s.isUploaded = true) :
    (extractTextFromPDF extract outcome s).isUploaded = true := by
  cases extract with
  | none => exact h
  | some text => exact extractTextFromPDF_some_isUploaded text outcome s

/-- handleFileSelect never clears isUploaded. -/
lemma handleFileSelect_isUploaded_mono (file : Option JsFile)
    (extract : Option String) (outcome : FetchOutcome) (s : AppState)
    (h : s.isUploaded = true) :
    ((handleFileSelect file extract outcome s).1).isUploaded = true := by
  cases file with
  | none => exact h
  | some f =>
    by_cases hf : f.type = "application/pdf"
    · simp only [handleFileSelect, if_pos hf]
      exact extractTextFromPDF_isUploaded_mono extract outcome _ h
    · simp only [handleFileSelect, if_neg hf]
      exact h

/-- Claim C6, counterexample.  Accepting a PDF while a prior query result
is present: the prior result is not cleared (the handler writes only
pdfFile and error before invoking extraction, and neither extraction nor
processing touches queryResult). -/
theorem C6_counterexample :
    ((handleFileSelect (some (JsFile.mk "c.pdf" "application/pdf"))
        (some "TEXT") (FetchOutcome.plain true)
        { initState with
            queryResult := some (QueryResult.mk true "old" "old answer" []) }).1).queryResult
      = some (QueryResult.mk true "old" "old answer" []) := by
  decide

/-- Claim C6, amended.  For every accepted PDF selection the handler
clears the prior error message, stores the file handle, and invokes text
extraction (the run equals extraction started from the state with the
file stored and the error cleared, and the invocation flag is true); the
prior query result is NOT cleared: it survives the whole run unchanged,
and the stored handle also survives it. -/
theorem C6_theorem (s : AppState) (f : JsFile) (extract : Option String)
    (outcome : FetchOutcome) (h : f.type = "application/pdf") :
    handleFileSelect (some f) extract outcome s
      = (extractTextFromPDF extract outcome
          { s with pdfFile := some f, error := "" }, true) ∧
    ((handleFileSelect (some f) extract outcome s).1).queryResult
      = s.queryResult ∧
    ((handleFileSelect (some f) extract outcome s).1).pdfFile = some f := by
  have h1 : handleFileSelect (some f) extract outcome s
      = (extractTextFromPDF extract outcome
          { s with pdfFile := some f, error := "" }, true) := by
    simp only [handleFileSelect, if_pos h]
  refine ⟨h1, ?_, ?_⟩
  · rw [h1]
    exact extractTextFromPDF_queryResult extract outcome _
  · rw [h1]
    exact extractTextFromPDF_pdfFile extract outcome _

/-- Claim C6, witness for the amended theorem. -/
theorem C6_witness :
    ({ name := "c.pdf", type := "application/pdf" } : JsFile).type
        = "application/pdf" ∧
    ((handleFileSelect (some { name := "c.pdf", type := "application/pdf" })
        (some "TEXT") (FetchOutcome.plain true) initState).1).queryResult
      = initState.queryResult :=
  ⟨rfl,
    (C6_theorem initState { name := "c.pdf", type := "application/pdf" }
      (some "TEXT") (FetchOutcome.plain true) rfl).2.1⟩

/-- Claim C7, counterexample.  A failing extraction from the initial state
leaves uploadProgress at 25 (written just before the failing await), not
at 0 as the claim requires. -/
theorem C7_counterexample :
    (extractTextFromPDF none FetchOutcome.fetchError initState).uploadProgress
      = 25 ∧
    ¬ (extractTextFromPDF none FetchOutcome.fetchError
        initState).uploadProgress = 0 := by
  refine ⟨by decide, by decide⟩

/-- Claim C7, amended.  When extraction fails the handler sets the
extraction error message and clears the in-progress flag, leaving the
uploaded flag, the query state and the processing progress unchanged; but
the progress counters are not zeroed: uploadProgress ends at 25 (the
value written before the failing await) and processingProgress keeps its
prior value. -/
theorem C7_theorem (s : AppState) (outcome : FetchOutcome) :
    extractTextFromPDF none outcome s
      = { s with
            uploadProgress := 25
            isProcessing := false
            error := "Failed to extract text from PDF. Please try with a different PDF file." } := by
  rfl

/-- Claim C8, confirmed.  For every query string that is blank after
trimming, the handler returns before any state write and performs no
network call: the state is returned exactly as it came in (prior result,
querying flag and all other fields included) and the network flag is
false. -/
theorem C8_theorem (s : AppState) (outcome : QueryOutcome)
    (h : jsTrim s.query = "") :
    handleQuery outcome s = (s, false) := by
  simp only [handleQuery, if_pos h]

/-- Claim C8, witness. -/
theorem C8_witness :
    jsTrim "   " = "" ∧
    handleQuery QueryOutcome.failure { initState with query := "   " }
      = ({ initState with query := "   " }, false) :=
  ⟨by decide,
    C8_theorem { initState with query := "   " } QueryOutcome.failure
      (by decide)⟩

/-- Claim C9, confirmed.  A plain Enter key event (no Shift) produces
exactly the run of handleQuery (same final state, same network activity)
and calls preventDefault, suppressing the newline; an event with Shift
held leaves the state unchanged, performs no call and does not prevent
the default insertion. -/
theorem C9_theorem (e : KeyEvent) (outcome : QueryOutcome) (s : AppState) :
    (e.key = "Enter" → e.shiftKey = false →
      handleKeyPress e outcome s
        = ((handleQuery outcome s).1, (handleQuery outcome s).2, true)) ∧
    (e.shiftKey = true → handleKeyPress e outcome s = (s, false, false)) := by
  constructor
  · intro hk hs
    simp [handleKeyPress, hk, hs]
  · intro hs
    simp [handleKeyPress, hs]

/-- Claim C9, witness. -/
theorem C9_witness :
    ({ key := "Enter", shiftKey := false } : KeyEvent).key = "Enter" ∧
    handleKeyPress { key := "Enter", shiftKey := false }
        QueryOutcome.failure initState
      = ((handleQuery QueryOutcome.failure initState).1,
          (handleQuery QueryOutcome.failure initState).2, true) ∧
    handleKeyPress { key := "Enter", shiftKey := true }
        QueryOutcome.failure initState
      = (initState, false, false) :=
  ⟨rfl,
    (C9_theorem { key := "Enter", shiftKey := false }
      QueryOutcome.failure initState).1 rfl rfl,
    (C9_theorem { key := "Enter", shiftKey := true }
      QueryOutcome.failure initState).2 rfl⟩

/-- Claim C10, confirmed.  isUploaded is written only once, to true, on
successful extraction: every handler of the component preserves a true
isUploaded, so once set it never reverts to false.  Consequently the
query textarea (whose disabled attribute is the negation of isUploaded)
stays enabled; in particular a cycle whose extraction succeeds but whose
backend processing fails (here: the processing fetch rejects) leaves the
input enabled. -/
theorem C10_theorem (s : AppState) (h : s.isUploaded = true) :
    (∀ file extract outcome,
      ((handleFileSelect file extract outcome s).1).isUploaded = true) ∧
    (∀ extract outcome,
      (extractTextFromPDF extract outcome s).isUploaded = true) ∧
    (∀ text outcome,
      (processConstitution text outcome s).isUploaded = true) ∧
    (∀ outcome, ((handleQuery outcome s).1).isUploaded = true) ∧
    (∀ e outcome, ((handleKeyPress e outcome s).1).isUploaded = true) ∧
    queryInputEnabled s = true ∧
    (∀ (s0 : AppState) (f : JsFile) (text : String),
      f.type = "application/pdf" →
      queryInputEnabled
        ((handleFileSelect (some f) (some text)
          FetchOutcome.fetchError s0).1) = true) := by
  refine ⟨?_, ?_, ?_, ?_, ?_, h, ?_⟩
  · intro file extract outcome
    exact handleFileSelect_isUploaded_mono file extract outcome s h
  · intro extract outcome
    exact extractTextFromPDF_isUploaded_mono extract outcome s h
  · intro text outcome
    rw [processConstitution_isUploaded]
    exact h
  · intro outcome
    rw [handleQuery_isUploaded]
    exact h
  · intro e outcome
    unfold handleKeyPress
    split
    · show ((handleQuery outcome s).1).isUploaded = true
      rw [handleQuery_isUploaded]
      exact h
    · exact h
  · intro s0 f text hf
    show ((handleFileSelect (some f) (some text)
      FetchOutcome.fetchError s0).1).isUploaded = true
    simp only [handleFileSelect, if_pos hf]
    exact extractTextFromPDF_some_isUploaded text FetchOutcome.fetchError _

/-- Claim C10, witness. -/
theorem C10_witness :
    ({ initState with isUploaded := true } : AppState).isUploaded = true ∧
    queryInputEnabled { initState with isUploaded := true } = true :=
  ⟨rfl, (C10_theorem { initState with isUploaded := true } rfl).2.2.2.2.2.1⟩
